import Mathlib

/-!
Verification development for the BERDL Chat demo application (`main.py`).

The application is procedural glue: three functions (`query_berdl`,
`generate_sql`, `explain_results`) wrapping two outbound HTTP calls.
We embed these functions shallowly:

* environment variables become an explicit `Env` record of optional strings
  (Python `os.getenv` returns `None` when unset, and `if not x` treats both
  `None` and the empty string as falsy — modelled by `truthyOpt`);
* decoded JSON values become the inductive `JVal`, with Python truthiness
  (`truthyJ`) and `dict.get` (`dictGet` / `dictGetD`);
* the network is an oracle `Remote` describing what the single `httpx.post`
  call (followed by `response.json()`) does: time out, raise some other
  exception with a message, or deliver a decoded JSON dictionary.  A decoded
  body that is not a dictionary would make `data.get(...)` raise, which the
  blanket `except Exception` turns into an error envelope, so such behaviours
  are covered by the `raiseExn` constructor;
* a language-model call is not executed: the embedded functions return a
  value recording either the in-band string produced without any call, or
  the exact request data handed to the model.
-/

/-- Decoded JSON values as Python sees them after `response.json()`:
`None`, booleans, numbers (integral case), strings, lists and dictionaries.
Dictionaries keep insertion order, as Python dicts do. -/
inductive JVal where
  | null : JVal
  | jbool (b : Bool) : JVal
  | jnum (n : Int) : JVal
  | jstr (s : String) : JVal
  | jarr (xs : List JVal) : JVal
  | jobj (fields : List (String × JVal)) : JVal

/-- Python truthiness for a decoded value: `None`, `False`, `0`, `""`,
`[]` and the empty dict are falsy, everything else is truthy. -/
def truthyJ : JVal → Bool
  | .null => false
  | .jbool b => b
  | .jnum n => n != 0
  | .jstr s => !s.isEmpty
  | .jarr xs => !xs.isEmpty
  | .jobj fs => !fs.isEmpty

/-- Python truthiness of an `os.getenv` result: unset (`None`) and the empty
string are falsy. -/
def truthyOpt : Option String → Bool
  | none => false
  | some s => !s.isEmpty

/-- Python `d.get(k)`: the stored value when the key is present (even when
that value is `None`), and `None` otherwise. -/
def dictGet (fs : List (String × JVal)) (k : String) : JVal :=
  (fs.lookup k).getD .null

/-- Python `d.get(k, default)`: the stored value when the key is present
(even when falsy), and `default` only when the key is absent. -/
def dictGetD (fs : List (String × JVal)) (k : String) (d : JVal) : JVal :=
  (fs.lookup k).getD d

/-- Boolean test that `needle` occurs at the start of `hay`. -/
def startsWithL (needle hay : List Char) : Bool :=
  match needle, hay with
  | [], _ => true
  | _ :: _, [] => false
  | a :: as, b :: bs => a == b && startsWithL as bs

/-- Boolean test that `needle` occurs as a contiguous substring of `hay`;
this is the semantics of the Python `in` operator on strings. -/
def containsL (needle : List Char) : List Char → Bool
  | [] => needle.isEmpty
  | c :: rest => startsWithL needle (c :: rest) || containsL needle rest

/-- The denylisted keywords of the naive SQL-injection filter
(`main.py`, line 67). -/
def bannedKeywords : List String :=
  ["DROP", "DELETE", "UPDATE", "INSERT", "ALTER"]

/-- The filter condition of `query_berdl`:
`any(keyword in sql.upper() for keyword in [...])`.  Uppercasing is the
per-character map `Char.toUpper`, which agrees with Python `str.upper` on
ASCII; all five keywords are ASCII. -/
def sqlBanned (sql : String) : Bool :=
  bannedKeywords.any fun kw => containsL kw.toList (sql.toList.map Char.toUpper)

/-- The process environment as read through `os.getenv`: `none` models an
unset variable. -/
structure Env where
  kb_auth_token : Option String
  anthropic_api_key : Option String

/-- Oracle for the single network interaction of `query_berdl`
(`httpx.post` followed by `response.json()`):
either the post times out (`httpx.TimeoutException`), or the post / JSON
decoding / attribute access raises some other exception whose `str` is
`msg`, or a decoded JSON dictionary `data` is obtained. -/
inductive Remote where
  | timeout : Remote
  | raiseExn (msg : String) : Remote
  | ok (data : List (String × JVal)) : Remote

/-- Result of running `query_berdl`: the returned envelope (always a Python
dict, hence a `JVal`), together with whether the `httpx.post` network call
was performed. -/
structure QueryOutcome where
  envelope : JVal
  networkCall : Bool

/-- Error envelope `\x7b"error": msg\x7d` as built by `query_berdl`. -/
def mkError (msg : JVal) : JVal :=
  .jobj [("error", msg)]

/-- Shallow embedding of `query_berdl` (`main.py`, lines 60-90).
The body follows the source line by line: missing/empty credential check,
denylist filter, then the `try` block whose outcome is supplied by the
`remote` oracle. -/
def query_berdl (env : Env) (remote : Remote) (sql : String) : QueryOutcome :=
  if truthyOpt env.kb_auth_token = false then
    ⟨mkError (.jstr "KB_AUTH_TOKEN not set in .env"), false⟩
  else if sqlBanned sql then
    ⟨mkError (.jstr "Only SELECT queries are allowed"), false⟩
  else
    match remote with
    | .timeout => ⟨mkError (.jstr "Query timed out after 30 seconds"), true⟩
    | .raiseExn msg => ⟨mkError (.jstr msg), true⟩
    | .ok data =>
      if truthyJ (dictGet data "error") || truthyJ (dictGet data "error_type") then
        ⟨mkError (dictGetD data "message" (.jstr "Unknown API error")), true⟩
      else
        ⟨.jobj data, true⟩

mutual

/-- Python `repr` of a decoded value, as used when a value is embedded in a
larger `str()` rendering (list/dict elements).  String quoting is the plain
single-quote form; escape sequences inside string contents are not expanded,
which is exact for quote-free, printable contents (the only ones the claims
evaluate). -/
def pyRepr : JVal → String
  | .null => "None"
  | .jbool true => "True"
  | .jbool false => "False"
  | .jnum n => toString n
  | .jstr s => "\x27" ++ s ++ "\x27"
  | .jarr xs => "[" ++ pyReprList xs ++ "]"
  | .jobj fs => "\x7b" ++ pyReprFields fs ++ "\x7d"

/-- Comma-separated `repr` of list elements. -/
def pyReprList : List JVal → String
  | [] => ""
  | [x] => pyRepr x
  | x :: y :: rest => pyRepr x ++ ", " ++ pyReprList (y :: rest)

/-- Comma-separated `repr` of dict entries. -/
def pyReprFields : List (String × JVal) → String
  | [] => ""
  | [(k, v)] => "\x27" ++ k ++ "\x27: " ++ pyRepr v
  | (k, v) :: p :: rest => "\x27" ++ k ++ "\x27: " ++ pyRepr v ++ ", " ++ pyReprFields (p :: rest)

end

/-- Python `str` of a decoded value, the conversion applied by f-string
interpolation: a string renders as itself, every other value as its `repr`. -/
def pyStr : JVal → String
  | .jstr s => s
  | v => pyRepr v

/-- The static system prompt `SCHEMA_CONTEXT` (`main.py`, lines 26-57). -/
def SCHEMA_CONTEXT : String :=
  "You are a SQL assistant for the BERDL Data Lakehouse (NMDC microbiome data).\n\nAvailable database: nmdc_core\n\nKey tables and their columns:\n\n1. trait_features - Predicted microbial traits per sample\n   - sample_id (string)\n   - 90+ columns like: \"functional_group:plastic_degradation\", \"functional_group:methanogenesis\",\n     \"functional_group:nitrogen_fixation\", \"functional_group:oil_bioremediation\",\n     \"functional_group:human_pathogens_all\", \"functional_group:cellulolysis\", etc.\n   - Values are numeric (0 = absent, >0 = present/abundance)\n\n2. abiotic_features - Environmental measurements per sample\n   - sample_id, annotations_ph, annotations_temp_has_numeric_value,\n     annotations_depth_has_numeric_value, annotations_tot_org_carb_has_numeric_value, etc.\n\n3. taxonomy_dim - Taxonomy hierarchy (2.6M records)\n   - taxid, kingdom, phylum, class, order, family, genus, species\n\n4. study_table - Study metadata (48 studies)\n   - study_id, name, ecosystem, ecosystem_type, ecosystem_subtype\n\n5. cog_categories - COG functional categories\n   - cog_id, category_code, category_name, description\n\nRules:\n- Always use fully qualified table names: nmdc_core.table_name\n- Columns with special characters need quotes: \"functional_group:plastic_degradation\"\n- Keep queries simple and limit results (LIMIT 20 unless user asks for more)\n- Return ONLY the SQL query, no explanation, no markdown code blocks\n"

/-- Result of `generate_sql`: either the in-band sentinel string returned
without contacting the language model, or a record of the single model call
(its system prompt and user-message content); the Python function then
returns that call answer, stripped. -/
inductive GenResult where
  | sentinel (s : String) : GenResult
  | lmCall (system_prompt user_content : String) : GenResult

/-- Shallow embedding of `generate_sql` (`main.py`, lines 93-110): missing
or empty `ANTHROPIC_API_KEY` short-circuits with a SQL-comment sentinel;
otherwise the model is called with `SCHEMA_CONTEXT` as system prompt and the
question wrapped in a fixed instruction. -/
def generate_sql (env : Env) (user_question : String) : GenResult :=
  if truthyOpt env.anthropic_api_key = false then
    .sentinel "-- Error: ANTHROPIC_API_KEY not set"
  else
    .lmCall SCHEMA_CONTEXT ("Write a SQL query to answer: " ++ user_question)

/-- Data handed to the language model by `explain_results`: the question,
the SQL, the `str()` rendering of the first ten result rows
(`result_summary`), and the total-row count value (`total_rows`). -/
structure LMRequest where
  question : String
  sql : String
  result_summary : String
  total_rows : JVal

/-- Result of `explain_results`: either a string returned without contacting
the language model, or a record of the single model call; the Python
function then returns that call answer, stripped. -/
inductive ExplainResult where
  | plain (s : String) : ExplainResult
  | lmCall (req : LMRequest) : ExplainResult

/-- Python slicing `v[:10]`, defined on lists and strings; on any other
value it raises a `TypeError`. -/
def pySlice10 : JVal → Except String JVal
  | .jarr xs => .ok (.jarr (xs.take 10))
  | .jstr s => .ok (.jstr (s.take 10))
  | _ => .error "TypeError: value is not subscriptable"

/-- Python `len(v)`, defined on lists, strings and dicts; on any other value
it raises a `TypeError`. -/
def pyLen : JVal → Except String Nat
  | .jarr xs => .ok xs.length
  | .jstr s => .ok s.length
  | .jobj fs => .ok fs.length
  | _ => .error "TypeError: value has no len"

/-- Python `v.get("total_count", default)` on the pagination value: it is an
attribute access, so a non-dict pagination value raises. -/
def paginationTotal (pag : JVal) (d : JVal) : Except String JVal :=
  match pag with
  | .jobj pfs => .ok (dictGetD pfs "total_count" d)
  | _ => .error "AttributeError: value has no attribute get"

/-- Shallow embedding of `explain_results` (`main.py`, lines 113-146),
following the source order: the `ANTHROPIC_API_KEY` check first, then the
error-envelope short-circuit, then extraction of `result_data`,
`result_summary` and `total_rows` (with `len(result_data)` evaluated
eagerly as the `get` default), and finally the model call.  `Except` records
the uncaught exceptions these extractions can raise. -/
def explain_results (env : Env) (question sql : String)
    (results : List (String × JVal)) : Except String ExplainResult :=
  if truthyOpt env.anthropic_api_key = false then
    .ok (.plain "Error: ANTHROPIC_API_KEY not set")
  else if (results.lookup "error").isSome then
    .ok (.plain ("**Query failed:** " ++ pyStr (dictGet results "error")))
  else do
    let result_data := dictGetD results "result" (.jarr [])
    let sliced ← pySlice10 result_data
    let result_summary := pyStr sliced
    let n ← pyLen result_data
    let total_rows ← paginationTotal (dictGetD results "pagination" (.jobj [])) (.jnum n)
    .ok (.lmCall ⟨question, sql, result_summary, total_rows⟩)

/-- Boolean predicate: the value is a dict carrying an `error` key, i.e. an
error envelope in the sense of the spec. -/
def isErrorEnvelope : JVal → Bool
  | .jobj fs => (fs.lookup "error").isSome
  | _ => false

theorem startsWithL_append (xs ys : List Char) : startsWithL xs (xs ++ ys) = true := by
  induction xs with
  | nil => rfl
  | cons a as ih => simp [startsWithL, ih]

theorem startsWithL_self (xs : List Char) : startsWithL xs xs = true := by
  have h := startsWithL_append xs []
  simpa using h

theorem containsL_append_right (n p : List Char) : containsL n (p ++ n) = true := by
  induction p with
  | nil =>
    cases n with
    | nil => rfl
    | cons c cs => simp [containsL, startsWithL_self]
  | cons c p ih => simp [containsL, ih]

theorem toList_append (a b : String) : (a ++ b).toList = a.toList ++ b.toList := by
  cases a
  cases b
  rfl

/-- C1: a SQL string whose upper-cased form contains one of the denylisted
substrings `DROP`, `DELETE`, `UPDATE`, `INSERT`, `ALTER` makes `query_berdl`
return an error envelope without performing the network call, whatever the
environment and the remote behaviour (when the credential is also missing
the envelope is the credential error, still with no network call). -/
theorem banned_keyword_blocks_query (env : Env) (remote : Remote) (sql : String)
    (h : sqlBanned sql = true) :
    isErrorEnvelope (query_berdl env remote sql).envelope = true ∧
    (query_berdl env remote sql).networkCall = false := by
  by_cases htok : truthyOpt env.kb_auth_token = false
  · simp [query_berdl, htok, isErrorEnvelope, mkError, List.lookup]
  · simp [query_berdl, htok, h, isErrorEnvelope, mkError, List.lookup]

/-- C1 witness: a pure SELECT query mentioning the column `updated_at`
(which contains `UPDATE` as a substring) is rejected with no network call,
even though it mutates nothing. -/
theorem banned_keyword_blocks_query_witness :
    sqlBanned "SELECT updated_at FROM nmdc_core.study_table" = true ∧
    isErrorEnvelope (query_berdl ⟨some "tok", some "key"⟩ (.ok [])
      "SELECT updated_at FROM nmdc_core.study_table").envelope = true ∧
    (query_berdl ⟨some "tok", some "key"⟩ (.ok [])
      "SELECT updated_at FROM nmdc_core.study_table").networkCall = false := by
  refine ⟨by decide, ?_⟩
  exact banned_keyword_blocks_query ⟨some "tok", some "key"⟩ (.ok [])
    "SELECT updated_at FROM nmdc_core.study_table" (by decide)

/-- C3: with `KB_AUTH_TOKEN` unset, `query_berdl` returns exactly the
envelope carrying the message `KB_AUTH_TOKEN not set in .env`, and the
network call is not performed, for every SQL string and remote behaviour. -/
theorem missing_token_short_circuits (ak : Option String) (remote : Remote) (sql : String) :
    query_berdl ⟨none, ak⟩ remote sql =
      ⟨mkError (.jstr "KB_AUTH_TOKEN not set in .env"), false⟩ := rfl

/-- C4: once the credential and denylist checks pass and a decoded dict is
obtained, `query_berdl` returns the error envelope built from the dict's
`message` field (default `Unknown API error`) exactly when the dict has a
truthy `error` or `error_type` field, and otherwise returns the decoded
body verbatim. -/
theorem response_error_dispatch (env : Env) (data : List (String × JVal)) (sql : String)
    (htok : truthyOpt env.kb_auth_token = true) (hsql : sqlBanned sql = false) :
    ((truthyJ (dictGet data "error") || truthyJ (dictGet data "error_type")) = true →
      query_berdl env (.ok data) sql =
        ⟨mkError (dictGetD data "message" (.jstr "Unknown API error")), true⟩) ∧
    ((truthyJ (dictGet data "error") || truthyJ (dictGet data "error_type")) = false →
      query_berdl env (.ok data) sql = ⟨.jobj data, true⟩) := by
  constructor <;> intro hflag <;> simp [query_berdl, htok, hsql, hflag]

/-- C4 witness: a response with a truthy `error_type` and a `message` field
yields the error envelope with that message; a response with neither flag is
returned verbatim. -/
theorem response_error_dispatch_witness :
    query_berdl ⟨some "tok", some "key"⟩
        (.ok [("error_type", .jstr "x"), ("message", .jstr "boom")]) "SELECT 1" =
      ⟨mkError (dictGetD [("error_type", .jstr "x"), ("message", .jstr "boom")]
        "message" (.jstr "Unknown API error")), true⟩ ∧
    query_berdl ⟨some "tok", some "key"⟩ (.ok [("result", .jarr [])]) "SELECT 1" =
      ⟨.jobj [("result", .jarr [])], true⟩ := by
  constructor
  · exact (response_error_dispatch ⟨some "tok", some "key"⟩
      [("error_type", .jstr "x"), ("message", .jstr "boom")] "SELECT 1" rfl (by decide)).1 rfl
  · exact (response_error_dispatch ⟨some "tok", some "key"⟩
      [("result", .jarr [])] "SELECT 1" rfl (by decide)).2 rfl

/-- C5: once the credential and denylist checks pass, a transport timeout is
reported as exactly `Query timed out after 30 seconds`, and any other
transport exception is reported using its string representation. -/
theorem timeout_and_exception_messages (env : Env) (sql : String)
    (htok : truthyOpt env.kb_auth_token = true) (hsql : sqlBanned sql = false) :
    query_berdl env .timeout sql =
      ⟨mkError (.jstr "Query timed out after 30 seconds"), true⟩ ∧
    ∀ msg : String, query_berdl env (.raiseExn msg) sql = ⟨mkError (.jstr msg), true⟩ := by
  refine ⟨?_, fun msg => ?_⟩ <;> simp [query_berdl, htok, hsql]

/-- C5 witness: with the credential set and a clean SELECT, a timeout gives
the fixed timeout message and a connection failure gives its own message. -/
theorem timeout_and_exception_messages_witness :
    query_berdl ⟨some "tok", some "key"⟩ .timeout "SELECT 1" =
      ⟨mkError (.jstr "Query timed out after 30 seconds"), true⟩ ∧
    query_berdl ⟨some "tok", some "key"⟩ (.raiseExn "Connection refused") "SELECT 1" =
      ⟨mkError (.jstr "Connection refused"), true⟩ := by
  have h := timeout_and_exception_messages ⟨some "tok", some "key"⟩ "SELECT 1" rfl (by decide)
  exact ⟨h.1, h.2 "Connection refused"⟩

/-- C6: `query_berdl` is a pure function of the environment, the remote
behaviour and the SQL string — the embedding required no mutable state, so
two calls with identical inputs yield identical outcomes. -/
theorem query_deterministic (env : Env) (remote : Remote) (sql : String) :
    query_berdl env remote sql = query_berdl env remote sql := rfl

/-- C2 counterexample: the claim fails as stated, because the credential
check precedes the error-envelope check.  With `ANTHROPIC_API_KEY` unset and
an envelope carrying an `error` key, `explain_results` returns the missing-
key string, which does not even contain `Query failed`. -/
theorem explain_error_envelope_counterexample :
    explain_results ⟨some "tok", none⟩ "q" "SELECT 1" [("error", .jstr "boom")] =
      .ok (.plain "Error: ANTHROPIC_API_KEY not set") ∧
    containsL "Query failed".toList "Error: ANTHROPIC_API_KEY not set".toList = false :=
  ⟨rfl, by decide⟩

/-- C2 (amended: provided `ANTHROPIC_API_KEY` is set to a non-empty value):
for every envelope carrying an `error` key, `explain_results` returns the
string `**Query failed:** ` followed by the error value — a string starting
with the fixed `**Query failed:**` marker and containing the error's
message — and never calls the language model. -/
theorem explain_error_envelope_short_circuits (env : Env) (q s : String)
    (results : List (String × JVal)) (v : JVal)
    (hkey : truthyOpt env.anthropic_api_key = true)
    (herr : results.lookup "error" = some v) :
    explain_results env q s results = .ok (.plain ("**Query failed:** " ++ pyStr v)) ∧
    startsWithL "**Query failed:**".toList
      ("**Query failed:** " ++ pyStr v).toList = true ∧
    containsL (pyStr v).toList ("**Query failed:** " ++ pyStr v).toList = true ∧
    ∀ req, explain_results env q s results ≠ .ok (.lmCall req) := by
  have h1 : explain_results env q s results =
      .ok (.plain ("**Query failed:** " ++ pyStr v)) := by
    simp [explain_results, hkey, herr, dictGet]
  have hmarker : "**Query failed:** ".toList = "**Query failed:**".toList ++ [' '] := by
    decide
  have hsplit : ("**Query failed:** " ++ pyStr v).toList =
      ("**Query failed:**".toList ++ [' ']) ++ (pyStr v).toList := by
    rw [toList_append, hmarker]
  refine ⟨h1, ?_, ?_, fun req hreq => ?_⟩
  · rw [hsplit, List.append_assoc]
    exact startsWithL_append _ _
  · rw [hsplit]
    exact containsL_append_right _ _
  · rw [h1] at hreq
    simp at hreq

/-- C2 witness: with the key set and the envelope `error: boom`, the
explainer returns the `**Query failed:** boom` string and does not call the
language model. -/
theorem explain_error_envelope_short_circuits_witness :
    explain_results ⟨none, some "key"⟩ "q" "SELECT 1" [("error", .jstr "boom")] =
      .ok (.plain ("**Query failed:** " ++ pyStr (.jstr "boom"))) ∧
    startsWithL "**Query failed:**".toList
      ("**Query failed:** " ++ pyStr (.jstr "boom")).toList = true ∧
    containsL (pyStr (.jstr "boom")).toList
      ("**Query failed:** " ++ pyStr (.jstr "boom")).toList = true ∧
    ∀ req, explain_results ⟨none, some "key"⟩ "q" "SELECT 1" [("error", .jstr "boom")] ≠
      .ok (.lmCall req) :=
  explain_error_envelope_short_circuits ⟨none, some "key"⟩ "q" "SELECT 1"
    [("error", .jstr "boom")] (.jstr "boom") rfl rfl

/-- C7: with `ANTHROPIC_API_KEY` unset, `generate_sql` returns the sentinel
SQL comment, an in-band value rather than an exception, and records no
language-model call, for every question. -/
theorem generate_sql_missing_key_sentinel (kb : Option String) (q : String) :
    generate_sql ⟨kb, none⟩ q = .sentinel "-- Error: ANTHROPIC_API_KEY not set" ∧
    ∀ sp uc, generate_sql ⟨kb, none⟩ q ≠ .lmCall sp uc := by
  refine ⟨rfl, fun sp uc h => ?_⟩
  simp [generate_sql, truthyOpt] at h

/-- C8: for a non-error envelope whose `result` field decodes to a list of
rows and with no pagination metadata, the explainer does not raise; it hands
the language model the `str()` rendering of the first ten rows and a total
count equal to the number of returned rows (the fallback), and the sample
size is at most ten. -/
theorem explain_row_sample_and_total (env : Env) (q s : String)
    (results : List (String × JVal)) (rows : List JVal)
    (hkey : truthyOpt env.anthropic_api_key = true)
    (herr : results.lookup "error" = none)
    (hres : dictGetD results "result" (.jarr []) = .jarr rows)
    (hpag : results.lookup "pagination" = none) :
    explain_results env q s results =
      .ok (.lmCall ⟨q, s, pyStr (.jarr (rows.take 10)), .jnum rows.length⟩) ∧
    (rows.take 10).length ≤ 10 := by
  have hres2 : (results.lookup "result").getD (JVal.jarr []) = .jarr rows := hres
  constructor
  · simp [explain_results, hkey, herr, hres2, hpag, pySlice10, pyLen, dictGetD,
      paginationTotal, Bind.bind, Except.bind]
  · simp [List.length_take]

/-- C8 witness: an envelope with exactly zero rows does not raise; the model
request carries the empty row sample (rendered `[]`) and a total count 0. -/
theorem explain_row_sample_and_total_witness :
    explain_results ⟨none, some "key"⟩ "q" "SELECT 1" [("result", .jarr [])] =
      .ok (.lmCall ⟨"q", "SELECT 1",
        pyStr (.jarr (List.take 10 ([] : List JVal))), .jnum (List.length ([] : List JVal))⟩) ∧
    (List.take 10 ([] : List JVal)).length ≤ 10 :=
  explain_row_sample_and_total ⟨none, some "key"⟩ "q" "SELECT 1"
    [("result", .jarr [])] [] rfl rfl rfl rfl

/-- C9 (implicit): the credential check of `explain_results` precedes the
error-envelope check, so with `ANTHROPIC_API_KEY` unset the function returns
the missing-key string for every envelope — including envelopes that carry
an `error` key, which then never see the `Query failed` marker. -/
theorem explain_key_check_precedes_error_check (kb : Option String) (q s : String)
    (results : List (String × JVal)) :
    explain_results ⟨kb, none⟩ q s results =
      .ok (.plain "Error: ANTHROPIC_API_KEY not set") ∧
    containsL "Query failed".toList "Error: ANTHROPIC_API_KEY not set".toList = false :=
  ⟨rfl, by decide⟩

/-- C10 (implicit): `query_berdl` is total over the modelled behaviours —
its envelope is always a Python dict — and, once the precondition checks
pass, any non-timeout exception `msg` raised inside the `try` block is
caught and mapped to the envelope carrying its string representation. -/
theorem query_total_and_catches_exceptions (env : Env) (remote : Remote)
    (sql msg : String) :
    (∃ fs, (query_berdl env remote sql).envelope = .jobj fs) ∧
    (truthyOpt env.kb_auth_token = true → sqlBanned sql = false →
      query_berdl env (.raiseExn msg) sql = ⟨mkError (.jstr msg), true⟩) := by
  constructor
  · by_cases htok : truthyOpt env.kb_auth_token = false
    · exact ⟨[("error", .jstr "KB_AUTH_TOKEN not set in .env")],
        by simp [query_berdl, htok, mkError]⟩
    · by_cases hsql : sqlBanned sql = true
      · exact ⟨[("error", .jstr "Only SELECT queries are allowed")],
          by simp [query_berdl, htok, hsql, mkError]⟩
      · cases remote with
        | timeout =>
          exact ⟨[("error", .jstr "Query timed out after 30 seconds")],
            by simp [query_berdl, htok, hsql, mkError]⟩
        | raiseExn m =>
          exact ⟨[("error", .jstr m)], by simp [query_berdl, htok, hsql, mkError]⟩
        | ok data =>
          by_cases hflag :
              (truthyJ (dictGet data "error") || truthyJ (dictGet data "error_type")) = true
          · exact ⟨[("error", dictGetD data "message" (.jstr "Unknown API error"))],
              by simp [query_berdl, htok, hsql, hflag, mkError]⟩
          · exact ⟨data, by simp [query_berdl, htok, hsql, hflag, mkError]⟩
  · intro htok hsql
    simp [query_berdl, htok, hsql]

/-- C10 witness: at a concrete input the envelope is a dict, and a concrete
non-timeout exception message is returned verbatim in the error envelope. -/
theorem query_total_and_catches_exceptions_witness :
    (∃ fs, (query_berdl ⟨some "tok", some "key"⟩ .timeout "SELECT 1").envelope = .jobj fs) ∧
    query_berdl ⟨some "tok", some "key"⟩ (.raiseExn "boom") "SELECT 1" =
      ⟨mkError (.jstr "boom"), true⟩ := by
  have h := query_total_and_catches_exceptions ⟨some "tok", some "key"⟩ .timeout "SELECT 1" "boom"
  exact ⟨h.1, h.2 rfl (by decide)⟩

/-- C7 witness: with the key unset, a concrete question yields the sentinel
comment and no recorded model call. -/
theorem generate_sql_missing_key_sentinel_witness :
    generate_sql ⟨some "tok", none⟩ "How many samples have plastic degradation?" =
      .sentinel "-- Error: ANTHROPIC_API_KEY not set" ∧
    ∀ sp uc, generate_sql ⟨some "tok", none⟩ "How many samples have plastic degradation?" ≠
      .lmCall sp uc :=
  generate_sql_missing_key_sentinel (some "tok") "How many samples have plastic degradation?"
